import Mathlib

/-
Verification of the Result-monad core of `result_variants.py`.

The Python code is dynamically typed: a contained value may be an int, a
string, an exception object, a tuple, or another `Ok`/`Err` instance.  We
model that object universe as the mutually inductive types `PyVal` and
`PyResult` below, and each method of `Ok`/`Err`/`ResultAbc` as a Lean
function over `PyResult`.  Caller-supplied Python functions that may raise
are modelled as Lean functions into `Except PyVal PyVal`: `Except.ok u` is a
normal return of `u`, `Except.error e` is a raised exception object `e`.
The in-place mutation performed by `wrap` (`self.value = value; return self`)
is modelled by explicit state passing: `receiverAfter` gives the state of the
receiver object after each method call.
-/

mutual

/-- The universe of Python values the repository manipulates: integers,
strings, exception objects (carrying a description string), tuples (pairs,
as produced by `join`), and `Ok`/`Err` instances themselves (as stored by a
nested Result, e.g. `Ok(Ok(5))`). -/
inductive PyVal : Type where
  | int : Int → PyVal
  | str : String → PyVal
  | exc : String → PyVal
  | pair : PyVal → PyVal → PyVal
  | res : PyResult → PyVal

/-- A `Result[T, X]` object: either an `Ok` holding a value or an `Err`
holding an error value (classes `Ok` and `Err` of `result_variants.py`). -/
inductive PyResult : Type where
  | Ok : PyVal → PyResult
  | Err : PyVal → PyResult

end

/-- The `value` attribute shared by both variants (`ResultAbc.value`). -/
def PyResult.value : PyResult → PyVal
  | PyResult.Ok v => v
  | PyResult.Err x => x

/-- The `__bool__` dunder: `Ok.__bool__` returns `True` (line 195-196),
`Err.__bool__` returns `False` (line 267-268).  This is the discriminant
query of the tagged union. -/
def PyResult.toBool : PyResult → Bool
  | PyResult.Ok _ => true
  | PyResult.Err _ => false

/-- `Ok.unwrap` (lines 202-203) and `Err.unwrap` (lines 240-241): both
bodies are `return self.value`. -/
def PyResult.unwrap : PyResult → PyVal
  | PyResult.Ok v => v
  | PyResult.Err x => x

/-- `Ok.wrap` (lines 198-200) and `Err.wrap` (lines 236-238): both assign
`self.value = value` and return `self`.  The function below is at once the
post-state of the receiver and the returned object (they are the same
object in the source). -/
def PyResult.wrap (r : PyResult) (v : PyVal) : PyResult :=
  match r with
  | PyResult.Ok _ => PyResult.Ok v
  | PyResult.Err _ => PyResult.Err v

/-- `Ok.fmap` (lines 205-211): `try: return Ok(f(self.value)) except
Exception as e: return Err(e)`; `Err.fmap` (lines 243-244): `return self`. -/
def PyResult.fmap (r : PyResult) (f : PyVal → Except PyVal PyVal) : PyResult :=
  match r with
  | PyResult.Ok v =>
      match f v with
      | Except.ok u => PyResult.Ok u
      | Except.error e => PyResult.Err e
  | PyResult.Err x => PyResult.Err x

/-- `and_fmap = fmap` in both classes (lines 213 and 246). -/
def PyResult.and_fmap (r : PyResult) (f : PyVal → Except PyVal PyVal) : PyResult :=
  PyResult.fmap r f

/-- `Ok.bind` (lines 215-216): `return f(self.value)`; `Err.bind`
(lines 248-249): `return self`. -/
def PyResult.bind (r : PyResult) (f : PyVal → PyResult) : PyResult :=
  match r with
  | PyResult.Ok v => f v
  | PyResult.Err x => PyResult.Err x

/-- `and_bind = bind` in both classes (lines 218 and 251). -/
def PyResult.and_bind (r : PyResult) (f : PyVal → PyResult) : PyResult :=
  PyResult.bind r f

/-- `Ok.or_fmap` (lines 220-221): `return self`; `Err.or_fmap`
(lines 261-265): `try: return Err(f(self.value)) except Exception as e:
return Err(e)`. -/
def PyResult.or_fmap (r : PyResult) (f : PyVal → Except PyVal PyVal) : PyResult :=
  match r with
  | PyResult.Ok v => PyResult.Ok v
  | PyResult.Err x =>
      match f x with
      | Except.ok u => PyResult.Err u
      | Except.error e => PyResult.Err e

/-- `Ok.or_bind` (lines 223-224): `return self`; `Err.or_bind`
(lines 253-256): `return f(self.value)`. -/
def PyResult.or_bind (r : PyResult) (f : PyVal → PyResult) : PyResult :=
  match r with
  | PyResult.Ok v => PyResult.Ok v
  | PyResult.Err x => f x

/-- `Ok.join` (lines 226-227): `return Ok((self.value, other.value))`;
`Err.join` (lines 258-259): `return Err((self.value, other.value))`.
Python dispatches on the receiver only and reads `other.value` whatever
variant `other` is, so `other` ranges over all of `PyResult` here. -/
def PyResult.join (r other : PyResult) : PyResult :=
  match r with
  | PyResult.Ok v => PyResult.Ok (PyVal.pair v (PyResult.value other))
  | PyResult.Err x => PyResult.Err (PyVal.pair x (PyResult.value other))

/-- `ResultAbc.flatten` (lines 179-186): `if isinstance(self, ResultAbc):
return self.unwrap() else: return self`.  The guard tests `self`, which is
always a `ResultAbc` instance when the method runs, so the first branch is
always taken and the method returns `self.unwrap()`, i.e. the bare contained
value — whether or not that value is itself a Result.  The `else` branch is
unreachable, so it has no counterpart here. -/
def PyResult.flatten (r : PyResult) : PyVal :=
  PyResult.unwrap r

/-- `check_f` (lines 279-290): `try: return Ok(f(*a, **kw)) except Exception
as e: return Err(e)`.  The argument tuple is modelled as a list of values. -/
def check_f (f : List PyVal → Except PyVal PyVal) (args : List PyVal) : PyResult :=
  match f args with
  | Except.ok v => PyResult.Ok v
  | Except.error e => PyResult.Err e

/-- The operations callable on an existing `Ok`/`Err` instance, with their
arguments (caller-supplied functions included), for stating the mutation
behaviour of each method on its receiver. -/
inductive Op : Type where
  | wrap : PyVal → Op
  | unwrap : Op
  | fmap : (PyVal → Except PyVal PyVal) → Op
  | bind : (PyVal → PyResult) → Op
  | or_fmap : (PyVal → Except PyVal PyVal) → Op
  | or_bind : (PyVal → PyResult) → Op
  | join : PyResult → Op
  | flatten : Op

/-- Whether an operation is the rewrap operation. -/
def Op.isWrap : Op → Bool
  | Op.wrap _ => true
  | Op.unwrap => false
  | Op.fmap _ => false
  | Op.bind _ => false
  | Op.or_fmap _ => false
  | Op.or_bind _ => false
  | Op.join _ => false
  | Op.flatten => false

/-- State of the receiver object after each method call.  In the source,
`wrap` is the only method that assigns to `self.value` (lines 199 and 237);
every other method only reads `self.value`, so the receiver is unchanged. -/
def receiverAfter (r : PyResult) : Op → PyResult
  | Op.wrap v => PyResult.wrap r v
  | Op.unwrap => r
  | Op.fmap _ => r
  | Op.bind _ => r
  | Op.or_fmap _ => r
  | Op.or_bind _ => r
  | Op.join _ => r
  | Op.flatten => r

/-- Spec-side model of `unwrap` as the claim states it: on Success it yields
the value, on Failure it faults — delivers no value (`none`).  Used only to
compare the claimed behaviour with the source's `PyResult.unwrap`. -/
def unwrap_claimed : PyResult → Option PyVal
  | PyResult.Ok v => some v
  | PyResult.Err _ => none

/-- C1 (counterexample): the claim says `Failure(e).unwrap()` does not return
a value but faults; the source's `Err.unwrap` (lines 240-241) is
`return self.value` and returns the error object normally.  At the concrete
input `Err("boom")`, the code delivers the value `"boom"`, while the claimed
behaviour (`unwrap_claimed`) delivers no value. -/
theorem unwrap_err_faults_counterexample :
    some (PyResult.unwrap (PyResult.Err (PyVal.str "boom"))) ≠
      unwrap_claimed (PyResult.Err (PyVal.str "boom")) := by
  simp [PyResult.unwrap, unwrap_claimed]

/-- C1 (amended): `Success(v).unwrap()` returns `v`, and `Failure(e).unwrap()`
returns `e` — unwrap on either variant returns the contained value and never
faults. -/
theorem unwrap_returns_contained_value :
    ∀ v x : PyVal,
      PyResult.unwrap (PyResult.Ok v) = v ∧
        PyResult.unwrap (PyResult.Err x) = x := by
  intro v x
  exact ⟨rfl, rfl⟩

/-- C2 (code bug): `flatten` always returns `self.unwrap()`, because the
source's guard `isinstance(self, ResultAbc)` tests `self` (always true)
rather than `self.value`.  On a nested Result it does return the inner
Result, but on `Ok(5)` it returns the bare value `5` instead of behaving as
the identity, contradicting the method's own docstring ("If the wrapped
value is not `Ok|Err`, the return is `self`"). -/
theorem flatten_always_unwraps :
    PyResult.flatten (PyResult.Ok (PyVal.int 5)) = PyVal.int 5 ∧
      (∀ r : PyResult,
        PyResult.flatten (PyResult.Ok (PyVal.res r)) = PyVal.res r) ∧
      (∀ r : PyResult,
        PyResult.flatten (PyResult.Err (PyVal.res r)) = PyVal.res r) := by
  refine ⟨rfl, fun r => rfl, fun r => rfl⟩

/-- C3: `map` (`fmap`/`and_fmap`): on `Ok v`, if `f v` returns normally the
result is `Ok (f v)`; if `f` raises `e` the raised error is captured and
`Err e` is returned (no exception escapes, since `fmap` is total); on
`Err x` the result is `Err x` with the error untouched, for any `f`. -/
theorem fmap_spec :
    ∀ (f : PyVal → Except PyVal PyVal) (v : PyVal),
      (∀ u, f v = Except.ok u → PyResult.and_fmap (PyResult.Ok v) f = PyResult.Ok u) ∧
        (∀ e, f v = Except.error e → PyResult.and_fmap (PyResult.Ok v) f = PyResult.Err e) ∧
        (∀ x, PyResult.and_fmap (PyResult.Err x) f = PyResult.Err x) := by
  intro f v
  refine ⟨fun u hu => ?_, fun e he => ?_, fun x => rfl⟩
  · simp [PyResult.and_fmap, PyResult.fmap, hu]
  · simp [PyResult.and_fmap, PyResult.fmap, he]

/-- C3 (witness): `fmap_spec` evaluated at the concrete function that
returns `7` and at the concrete raising function. -/
theorem fmap_spec_witness :
    PyResult.and_fmap (PyResult.Ok (PyVal.int 3))
        (fun _ => Except.ok (PyVal.int 7)) = PyResult.Ok (PyVal.int 7) ∧
      PyResult.and_fmap (PyResult.Ok (PyVal.int 3))
        (fun _ => Except.error (PyVal.exc "ZeroDivisionError")) =
          PyResult.Err (PyVal.exc "ZeroDivisionError") :=
  ⟨(fmap_spec (fun _ => Except.ok (PyVal.int 7)) (PyVal.int 3)).1
      (PyVal.int 7) rfl,
    (fmap_spec (fun _ => Except.error (PyVal.exc "ZeroDivisionError"))
        (PyVal.int 3)).2.1 (PyVal.exc "ZeroDivisionError") rfl⟩

/-- C4: `and_then` (`bind`/`and_bind`): on `Ok v` the result is `f v`
directly, with no extra wrapping; on `Err x` the result is the receiver
unmodified and `f` is never consulted. -/
theorem bind_spec :
    ∀ (f : PyVal → PyResult) (v x : PyVal),
      PyResult.and_bind (PyResult.Ok v) f = f v ∧
        PyResult.and_bind (PyResult.Err x) f = PyResult.Err x := by
  intro f v x
  exact ⟨rfl, rfl⟩

/-- C5: `map_err` (`or_fmap`): on `Err x`, if `g x` returns normally the
result is `Err (g x)`; if `g` raises `e` the new error is captured and
`Err e` is returned; on `Ok v` the result is `Ok v` for any `g`; and on an
`Err` receiver the result is always an `Err`, never an `Ok`. -/
theorem or_fmap_spec :
    ∀ (g : PyVal → Except PyVal PyVal) (x : PyVal),
      (∀ u, g x = Except.ok u → PyResult.or_fmap (PyResult.Err x) g = PyResult.Err u) ∧
        (∀ e, g x = Except.error e → PyResult.or_fmap (PyResult.Err x) g = PyResult.Err e) ∧
        (∀ v, PyResult.or_fmap (PyResult.Ok v) g = PyResult.Ok v) ∧
        PyResult.toBool (PyResult.or_fmap (PyResult.Err x) g) = false := by
  intro g x
  refine ⟨fun u hu => ?_, fun e he => ?_, fun v => rfl, ?_⟩
  · simp [PyResult.or_fmap, hu]
  · simp [PyResult.or_fmap, he]
  · cases hg : g x <;> simp [PyResult.or_fmap, hg, PyResult.toBool]

/-- C5 (witness): `or_fmap_spec` evaluated at the concrete function `str`
(modelled as mapping the error to a string) and at a raising function. -/
theorem or_fmap_spec_witness :
    PyResult.or_fmap (PyResult.Err (PyVal.exc "E"))
        (fun _ => Except.ok (PyVal.str "E")) = PyResult.Err (PyVal.str "E") ∧
      PyResult.or_fmap (PyResult.Err (PyVal.exc "E"))
        (fun _ => Except.error (PyVal.exc "TypeError")) =
          PyResult.Err (PyVal.exc "TypeError") :=
  ⟨(or_fmap_spec (fun _ => Except.ok (PyVal.str "E")) (PyVal.exc "E")).1
      (PyVal.str "E") rfl,
    (or_fmap_spec (fun _ => Except.error (PyVal.exc "TypeError"))
        (PyVal.exc "E")).2.1 (PyVal.exc "TypeError") rfl⟩

/-- C6: `or_else` (`or_bind`): on `Err x` the result is `h x` directly —
so when `h` returns an `Ok` the failure is recovered into a success, as the
concrete third conjunct shows; on `Ok v` the result is `Ok v` and `h` is
never consulted. -/
theorem or_bind_spec :
    (∀ (h : PyVal → PyResult) (x v : PyVal),
        PyResult.or_bind (PyResult.Err x) h = h x ∧
          PyResult.or_bind (PyResult.Ok v) h = PyResult.Ok v) ∧
      PyResult.toBool
        (PyResult.or_bind (PyResult.Err (PyVal.exc "E"))
          (fun _ => PyResult.Ok (PyVal.int 0))) = true := by
  exact ⟨fun h x v => ⟨rfl, rfl⟩, rfl⟩

/-- C7: `join` on same-variant pairs: `Ok v1 |>.join (Ok v2)` is
`Ok (v1, v2)` and `Err e1 |>.join (Err e2)` is `Err (e1, e2)`; in particular
at the spec's concrete inputs `join(Ok 1, Ok 2)` and
`join(Err "a", Err "b")`. -/
theorem join_same_variant :
    (∀ v1 v2 : PyVal,
        PyResult.join (PyResult.Ok v1) (PyResult.Ok v2) =
          PyResult.Ok (PyVal.pair v1 v2)) ∧
      (∀ e1 e2 : PyVal,
        PyResult.join (PyResult.Err e1) (PyResult.Err e2) =
          PyResult.Err (PyVal.pair e1 e2)) ∧
      PyResult.join (PyResult.Ok (PyVal.int 1)) (PyResult.Ok (PyVal.int 2)) =
        PyResult.Ok (PyVal.pair (PyVal.int 1) (PyVal.int 2)) ∧
      PyResult.join (PyResult.Err (PyVal.str "a")) (PyResult.Err (PyVal.str "b")) =
        PyResult.Err (PyVal.pair (PyVal.str "a") (PyVal.str "b")) := by
  exact ⟨fun v1 v2 => rfl, fun e1 e2 => rfl, rfl, rfl⟩

/-- C8: `lift` (`check_f`): if `f(*args)` returns `r` normally then the
result is `Ok r`; if `f(*args)` raises `e`, the error is captured and the
result is `Err e` — `check_f` is total, so nothing re-raises. -/
theorem check_f_spec :
    ∀ (f : List PyVal → Except PyVal PyVal) (args : List PyVal),
      (∀ r, f args = Except.ok r → check_f f args = PyResult.Ok r) ∧
        (∀ e, f args = Except.error e → check_f f args = PyResult.Err e) := by
  intro f args
  refine ⟨fun r hr => ?_, fun e he => ?_⟩
  · simp [check_f, hr]
  · simp [check_f, he]

/-- C8 (witness): `check_f` at `lambda: 5` yields `Ok 5`, and at
`lambda: 1/0` (which raises a division fault) yields `Err` of that fault. -/
theorem check_f_spec_witness :
    check_f (fun _ => Except.ok (PyVal.int 5)) [] = PyResult.Ok (PyVal.int 5) ∧
      check_f (fun _ => Except.error (PyVal.exc "ZeroDivisionError")) [] =
        PyResult.Err (PyVal.exc "ZeroDivisionError") :=
  ⟨(check_f_spec (fun _ => Except.ok (PyVal.int 5)) []).1 (PyVal.int 5) rfl,
    (check_f_spec (fun _ => Except.error (PyVal.exc "ZeroDivisionError")) []).2
      (PyVal.exc "ZeroDivisionError") rfl⟩

/-- C9: discriminant immutability: after any operation the receiver has the
same variant as before; `wrap` is the one mutator — it replaces the contained
value in place while keeping the receiver's variant (`Ok.wrap` yields an
`Ok`, `Err.wrap` an `Err`); every non-wrap operation leaves the receiver's
variant and contained value entirely unchanged. -/
theorem discriminant_immutable :
    ∀ (r : PyResult) (op : Op),
      PyResult.toBool (receiverAfter r op) = PyResult.toBool r ∧
        (∀ v, PyResult.toBool (PyResult.wrap r v) = PyResult.toBool r ∧
          PyResult.value (PyResult.wrap r v) = v) ∧
        (Op.isWrap op = false → receiverAfter r op = r) := by
  intro r op
  refine ⟨?_, fun v => ?_, fun hop => ?_⟩
  · cases op <;> cases r <;> rfl
  · cases r <;> exact ⟨rfl, rfl⟩
  · cases op <;> first
      | rfl
      | exact absurd hop (by simp [Op.isWrap])

/-- C9 (witness): `discriminant_immutable` at the concrete receiver `Ok 0`
and the non-wrap operation `unwrap`. -/
theorem discriminant_immutable_witness :
    receiverAfter (PyResult.Ok (PyVal.int 0)) Op.unwrap =
      PyResult.Ok (PyVal.int 0) :=
  (discriminant_immutable (PyResult.Ok (PyVal.int 0)) Op.unwrap).2.2 rfl

/-- C10: mixed-variant `join`: the left operand's variant alone determines
the result; `Ok v |>.join r` is `Ok (v, r.value)` and `Err e |>.join r` is
`Err (e, r.value)` for every Result `r`, whatever its variant — mixed pairs
are paired like any others, never rejected. -/
theorem join_left_determines :
    ∀ (v e : PyVal) (r : PyResult),
      PyResult.join (PyResult.Ok v) r =
          PyResult.Ok (PyVal.pair v (PyResult.value r)) ∧
        PyResult.join (PyResult.Err e) r =
          PyResult.Err (PyVal.pair e (PyResult.value r)) := by
  intro v e r
  exact ⟨rfl, rfl⟩
